import Mathlib

/-!
Shallow embedding of the search/indexing core of the Django catalog backend
(`catalog/serializers.py`, `catalog/views.py`, `catalog/models.py`,
`catalog/management/commands/populate_es.py`).

Decimal prices are modelled as `Rat`; Elasticsearch query objects are
modelled as inductive data mirroring the `elasticsearch_dsl` calls the code
makes; exceptions are modelled with `Except` / `Option String`.
-/

namespace Catalog

/-- Sort modes of `SearchQuerySerializer.SORT_CHOICES`
(serializers.py line 107). -/
inductive SortMode
  | relevance
  | price_asc
  | price_desc
deriving DecidableEq, Repr

/-- The configured maximum page size: `int(getattr(settings, "MAX_PAGE_SIZE", 100))`
(serializers.py line 115). -/
def MAX_PAGE_SIZE : Nat := 100

/-- The default page size: `int(getattr(settings, "PAGE_SIZE", 20))`
(serializers.py line 116). -/
def PAGE_SIZE : Nat := 20

/-- A validated `SearchQuery` as produced by `SearchQuerySerializer`
(serializers.py lines 92-160): free text `q`, parsed category id list,
optional non-negative price bounds, sort mode, page and page size. -/
structure SearchQuery where
  q : String := ""
  category : List Int := []
  price_min : Option Rat := none
  price_max : Option Rat := none
  sort : SortMode := SortMode.relevance
  page : Nat := 1
  page_size : Nat := PAGE_SIZE
deriving DecidableEq, Repr

/-- Python `value.split(",")` at character level: cut the character list at
every comma, keeping empty chunks. -/
def splitCommaAux : List Char → List Char → List (List Char)
  | [], acc => [acc.reverse]
  | c :: cs, acc =>
      if c = ',' then acc.reverse :: splitCommaAux cs []
      else splitCommaAux cs (c :: acc)

/-- Python `value.split(",")` on the characters of the string. -/
def splitComma (cs : List Char) : List (List Char) := splitCommaAux cs []

/-- Python `str.strip()`: drop leading and trailing whitespace. -/
def pyStrip (cs : List Char) : List Char :=
  ((cs.dropWhile Char.isWhitespace).reverse.dropWhile Char.isWhitespace).reverse

/-- Value of a non-empty all-digit character list, `none` otherwise. -/
def digitsVal (cs : List Char) : Option Nat :=
  if cs = [] then none
  else
    cs.foldl
      (fun acc c =>
        match acc with
        | none => none
        | some n => if c.isDigit then some (n * 10 + (c.toNat - '0'.toNat)) else none)
      (some 0)

/-- Python `int(chunk)` on a stripped chunk: an optional sign followed by
one or more digits; anything else raises `ValueError`, modelled as `none`. -/
def pyInt? (cs : List Char) : Option Int :=
  match cs with
  | '-' :: rest => (digitsVal rest).map (fun n => -(n : Int))
  | '+' :: rest => (digitsVal rest).map (fun n => (n : Int))
  | _ => (digitsVal cs).map (fun n => (n : Int))

/-- Model of `SearchQuerySerializer.validate_category` (serializers.py lines 119-139):
an empty string becomes `[]`; otherwise split on commas, strip whitespace,
drop empty chunks, and parse each chunk as an integer, rejecting the whole
field when any chunk fails to parse. -/
def validate_category (value : String) : Except String (List Int) :=
  if value = "" then Except.ok []
  else
    let parts := ((splitComma value.data).map pyStrip).filter (fun x => x ≠ [])
    match parts.mapM pyInt? with
    | some ids => Except.ok ids
    | none => Except.error "category must be a comma-separated list of integers"

/-- Model of `SearchQuerySerializer.validate` (serializers.py lines 141-160):
reject when both price bounds are present and `price_min > price_max`,
otherwise return the attributes unchanged. -/
def SearchQuerySerializer.validate (attrs : SearchQuery) : Except String SearchQuery :=
  match attrs.price_min, attrs.price_max with
  | some mn, some mx =>
      if mx < mn then Except.error "price_min must be <= price_max"
      else Except.ok attrs
  | _, _ => Except.ok attrs

/-- The full-text clause of the built query (views.py lines 160-166):
a weighted multi-match when `q` is non-empty, match-all otherwise. -/
inductive TextQuery
  | multiMatch (query : String) (fields : List String)
  | matchAll
deriving DecidableEq, Repr

/-- A filter clause of the built query (views.py lines 169-177): a `terms`
filter on `category_id`, or a `range` filter on `price` whose bounds are
open-ended on a missing side. -/
inductive Filter
  | termsCategoryId (ids : List Int)
  | rangePrice (gte lte : Option Rat)
deriving DecidableEq, Repr

/-- An indexed document as seen by the filter clauses. -/
structure EsDoc where
  id : Int
  category_id : Int
  price : Rat
deriving DecidableEq, Repr

/-- Semantics of a filter clause on a document: a `terms` filter keeps the
documents whose `category_id` is a member of the id list; a `range` filter
keeps the documents whose price satisfies each present bound. -/
def Filter.matchesDoc : Filter → EsDoc → Bool
  | Filter.termsCategoryId ids, doc => decide (doc.category_id ∈ ids)
  | Filter.rangePrice gte lte, doc =>
      (match gte with | some g => decide (g ≤ doc.price) | none => true) &&
      (match lte with | some l => decide (doc.price ≤ l) | none => true)

/-- The engine query built by `ProductSearchView.get` (views.py lines 156-193):
text clause, filter clauses, sort keys as passed to `.sort(...)` (empty list
means engine-native relevance order), and the half-open pagination window
`[window_start, window_end)` passed as the slice `s[start:end]`. -/
structure EsQuery where
  query : TextQuery
  filters : List Filter
  sort : List String
  window_start : Nat
  window_end : Nat
deriving DecidableEq, Repr

/-- Query construction of `ProductSearchView.get` (views.py lines 156-193),
from validated data: full-text clause, category and price filters, sort
keys (`"price"`, `"-price"`, `"id"`, or none for relevance), and the
pagination window `start = (page-1)*page_size`, `end = start + page_size`. -/
def buildSearch (d : SearchQuery) : EsQuery :=
  let q := d.q
  let base : TextQuery :=
    if q ≠ "" then TextQuery.multiMatch q ["name^3", "description"]
    else TextQuery.matchAll
  let filters : List Filter :=
    (if d.category ≠ [] then [Filter.termsCategoryId d.category] else []) ++
    (if d.price_min.isSome || d.price_max.isSome then
       [Filter.rangePrice d.price_min d.price_max]
     else [])
  let sortKeys : List String :=
    if d.sort = SortMode.price_asc then ["price"]
    else if d.sort = SortMode.price_desc then ["-price"]
    else if q = "" then ["id"] else []
  let start := (d.page - 1) * d.page_size
  { query := base, filters := filters, sort := sortKeys,
    window_start := start, window_end := start + d.page_size }

/-- The heterogeneous total-count shape returned by the engine:
`results.hits.total` is either a bare scalar or an object with a
`value` attribute (views.py lines 197-198). -/
inductive TotalShape
  | scalar (n : Nat)
  | structured (value : Nat)
deriving DecidableEq, Repr

/-- Total-count normalization (views.py lines 197-198):
`total.value if hasattr(total, "value") else total`. -/
def normalizeTotal : TotalShape → Nat
  | TotalShape.scalar n => n
  | TotalShape.structured v => v

/-- A raw hit as returned by the engine: `description`, `image` and the
relevance score may be absent (views.py lines 201-213 read them through
`getattr` with a default). -/
structure RawHit where
  id : Int
  category_id : Int
  category_name : String
  name : String
  price : Rat
  description : Option String
  image : Option String
  score : Option Rat
deriving DecidableEq, Repr

/-- One projected result item (views.py lines 201-213). -/
structure Item where
  id : Int
  category : Int
  category_name : String
  name : String
  price : Rat
  description : String
  image : String
  score : Option Rat
deriving DecidableEq, Repr

/-- Hit projection (views.py lines 201-213): copy the identifying fields,
default `description` and `image` to the empty string when absent, and pass
the score through unchanged (`None` when the engine computed none). -/
def projectHit (h : RawHit) : Item :=
  { id := h.id
    category := h.category_id
    category_name := h.category_name
    name := h.name
    price := h.price
    description := h.description.getD ""
    image := h.image.getD ""
    score := h.score }

/-- The response envelope (views.py lines 216-223). -/
structure Payload where
  count : Nat
  page : Nat
  page_size : Nat
  has_next : Bool
  has_prev : Bool
  results : List Item
deriving DecidableEq, Repr

/-- Response assembly of `ProductSearchView.get` (views.py lines 190-223):
`start = (page-1)*page_size`, `end = start + page_size`, the normalized
total, `has_next = end < total`, `has_prev = start > 0`, and the projected
hits in engine order. -/
def searchResponse (d : SearchQuery) (total : TotalShape) (hits : List RawHit) : Payload :=
  let start := (d.page - 1) * d.page_size
  let e := start + d.page_size
  let t := normalizeTotal total
  { count := t
    page := d.page
    page_size := d.page_size
    has_next := decide (e < t)
    has_prev := decide (0 < start)
    results := hits.map projectHit }

/-! ### Index synchronizer (models.py lines 82-121)

Engine calls are modelled by their outcome: `none` for success, `some e`
for an exception `e` raised by the call. The signal receivers run
synchronously after the relational write has been performed. -/

/-- The `post_save` receiver `index_product` (models.py lines 84-95): it
calls `registry.update(instance)` then `registry.update_related(instance)`
with no exception handler, so the first exception raised by either call
escapes the receiver. The two arguments are the outcomes of the two calls;
the result is the exception the receiver lets escape, if any. -/
def index_product (updateErr updateRelatedErr : Option String) : Option String :=
  match updateErr with
  | some e => some e
  | none => updateRelatedErr

/-- Outcome of `Product.save()`: the relational row is written (the signal
fires `post_save`, after the write), and `raised` is the exception that
reaches the caller of `save()`, if any. -/
structure SaveResult where
  row_committed : Bool
  raised : Option String
deriving DecidableEq, Repr

/-- A `Product.save()` in live mode: the relational write happens, then the
`post_save` signal runs `index_product` synchronously; whatever exception
`index_product` lets escape propagates to the caller of `save()`. -/
def productSave (updateErr updateRelatedErr : Option String) : SaveResult :=
  { row_committed := true
    raised := index_product updateErr updateRelatedErr }

/-- The `post_save` receiver `update_products_on_category_change`
(models.py lines 109-120): `for product in instance.products.all():
registry.update(product)` with no exception handler. `engine p` is the
outcome of `registry.update(p)`. The result is the list of products
actually indexed and the exception that escapes, if any: the loop body has
no handler, so the first failing product aborts the loop and the remaining
products are never indexed. -/
def update_products_on_category_change :
    List Int → (Int → Option String) → List Int × Option String
  | [], _ => ([], none)
  | p :: ps, engine =>
      match engine p with
      | some e => ([], some e)
      | none =>
          let r := update_products_on_category_change ps engine
          (p :: r.1, r.2)

/-- Semantics of `registry.delete(instance, raise_on_error=False)`
(django_elasticsearch_dsl): attempt to delete the document with the given
id from the index; when the document is absent the bulk call reports an
error, which is raised only when `raise_on_error` is true. Returns the new
index contents or the raised error. -/
def registryDelete (index : List Int) (docId : Int) (raise_on_error : Bool) :
    Except String (List Int) :=
  if docId ∈ index then Except.ok (index.filter (fun d => d ≠ docId))
  else if raise_on_error then Except.error "document not found"
  else Except.ok index

/-- The `post_delete` receiver `delete_product` (models.py lines 97-107):
`registry.delete(instance, raise_on_error=False)`. -/
def delete_product (index : List Int) (productId : Int) : Except String (List Int) :=
  registryDelete index productId false

/-! ### Full rebuild (populate_es.py, `Command.handle`) -/

/-- Model of `ProductDocument._index.delete(ignore=404)` (populate_es.py line 59):
deleting a missing index yields a 404 from the engine, which is ignored
when 404 is in the `ignore` list; otherwise it raises. -/
def esIndexDelete (indexExists : Bool) (ignore404 : Bool) : Except String Unit :=
  if indexExists then Except.ok ()
  else if ignore404 then Except.ok ()
  else Except.error "index_not_found_exception"

/-- The indexing loop of `Command.handle` (populate_es.py lines 76-89):
each product is upserted inside `try/except`, so a failing product is
skipped (its error printed) and the loop continues. Returns
`(indexed_count, processed)`: the number of successful upserts and the
number of products the loop reached. -/
def indexLoop : List Int → (Int → Bool) → Nat × Nat
  | [], _ => (0, 0)
  | p :: ps, failing =>
      let r := indexLoop ps failing
      (if failing p then r.1 else r.1 + 1, r.2 + 1)

/-- The operator-visible report of a full rebuild (populate_es.py lines
57-104): whether the old index was deleted and a fresh one created, the
success count printed in the final `Successfully indexed ...` line, how
many products the loop processed, and the failed count of the warning
line, which is printed only when `indexed_count < products.count()`. -/
structure RebuildReport where
  index_deleted : Bool
  index_created : Bool
  indexed_count : Nat
  processed : Nat
  failed_note : Option Nat
deriving DecidableEq, Repr

/-- Model of `Command.handle` (populate_es.py lines 31-104): delete the index with
`ignore=404`, recreate it, upsert every product (per-document failures are
caught and counted), then report the success count, and the failed count
only when some products failed. `failing p` says whether upserting product
`p` raises. -/
def populate_handle (indexExists : Bool) (products : List Int)
    (failing : Int → Bool) : Except String RebuildReport :=
  match esIndexDelete indexExists true with
  | Except.error e => Except.error e
  | Except.ok _ =>
      let r := indexLoop products failing
      let total := products.length
      Except.ok
        { index_deleted := true
          index_created := true
          indexed_count := r.1
          processed := r.2
          failed_note := if r.1 < total then some (total - r.1) else none }

/-! ### Category serializer (serializers.py lines 19-36) -/

/-- Model of `CategorySerializer.validate_name` (serializers.py lines 19-36): the
relational store is a list of `(id, name)` category rows;
`Category.objects.filter(name=value).exists()` is true when any row has
that name — the row being written is not excluded, since the check never
consults `self.instance`. -/
def CategorySerializer.validate_name (store : List (Int × String)) (value : String) :
    Except String String :=
  if store.any (fun r => r.2 == value) then
    Except.error "Категория с таким именем уже существует"
  else Except.ok value

/-! ### Theorems -/

/-- C1: for every valid SearchQuery (page ≥ 1, 1 ≤ page_size ≤ configured
maximum), the built query and the response use the window
`window_start = (page-1)*page_size`, and the response sets `has_prev` true
exactly when `window_start > 0` and `has_next` true exactly when
`window_start + page_size <` the total matched count. -/
theorem search_pagination_window (d : SearchQuery)
    (hp : 1 ≤ d.page) (hs : 1 ≤ d.page_size) (hm : d.page_size ≤ MAX_PAGE_SIZE)
    (t : TotalShape) (hits : List RawHit) :
    (buildSearch d).window_start = (d.page - 1) * d.page_size ∧
    (buildSearch d).window_end = (d.page - 1) * d.page_size + d.page_size ∧
    ((searchResponse d t hits).has_prev = true ↔ 0 < (d.page - 1) * d.page_size) ∧
    ((searchResponse d t hits).has_next = true ↔
      (d.page - 1) * d.page_size + d.page_size < normalizeTotal t) := by
  refine ⟨rfl, rfl, ?_, ?_⟩ <;> simp [searchResponse]

/-- Witness for C1 at page 2, page_size 5, a total of 12 matches. -/
theorem search_pagination_window_witness :
    let d : SearchQuery := { page := 2, page_size := 5 }
    (buildSearch d).window_start = 5 ∧
    ((searchResponse d (TotalShape.structured 12) []).has_prev = true ↔ 0 < 5) ∧
    ((searchResponse d (TotalShape.structured 12) []).has_next = true ↔ 10 < 12) := by
  have h := search_pagination_window { page := 2, page_size := 5 }
    (by decide) (by decide) (by decide) (TotalShape.structured 12) []
  exact ⟨h.1, h.2.2.1, h.2.2.2⟩

/-- C4: the built query sorts by ascending price for `price_asc`, by
descending price for `price_desc`; for `relevance` it passes no sort key
(engine-native relevance order) when the free-text term is non-empty, and
sorts by ascending id when the term is empty. -/
theorem search_sort_modes (d : SearchQuery) (hq : d.q ≠ "") :
    (buildSearch { d with sort := SortMode.price_asc }).sort = ["price"] ∧
    (buildSearch { d with sort := SortMode.price_desc }).sort = ["-price"] ∧
    (buildSearch { d with sort := SortMode.relevance }).sort = [] ∧
    (buildSearch { d with sort := SortMode.relevance, q := "" }).sort = ["id"] := by
  refine ⟨rfl, rfl, ?_, rfl⟩
  simp [buildSearch, hq]

/-- Witness for C4 at a query with the non-empty term "phone". -/
theorem search_sort_modes_witness :
    (buildSearch { q := "phone", sort := SortMode.relevance }).sort = [] := by
  have h := search_sort_modes { q := "phone" } (by decide)
  exact h.2.2.1

/-- C5: whatever the other fields hold, when both price bounds are present
with `price_min > price_max` validation rejects with the error naming the
price relationship; when at most one bound is present validation passes,
and the built range filter carries only the present bound, open-ended on
the missing side (a lower bound alone imposes no upper constraint and an
upper bound alone imposes no lower constraint). -/
theorem price_bounds_validation (d : SearchQuery) (mn mx : Rat) (hgt : mx < mn) :
    (SearchQuerySerializer.validate { d with price_min := some mn, price_max := some mx }
        = Except.error "price_min must be <= price_max") ∧
    (SearchQuerySerializer.validate { d with price_max := none }
        = Except.ok { d with price_max := none }) ∧
    (SearchQuerySerializer.validate { d with price_min := none }
        = Except.ok { d with price_min := none }) ∧
    (Filter.rangePrice (some mn) none ∈
        (buildSearch { d with price_min := some mn, price_max := none }).filters) ∧
    (Filter.rangePrice none (some mx) ∈
        (buildSearch { d with price_min := none, price_max := some mx }).filters) ∧
    (∀ doc : EsDoc, Filter.matchesDoc (Filter.rangePrice (some mn) none) doc
        = decide (mn ≤ doc.price)) ∧
    (∀ doc : EsDoc, Filter.matchesDoc (Filter.rangePrice none (some mx)) doc
        = decide (doc.price ≤ mx)) := by
  refine ⟨?_, ?_, ?_, ?_, ?_, ?_, ?_⟩
  · simp [SearchQuerySerializer.validate, hgt]
  · cases h : d.price_min <;> simp [SearchQuerySerializer.validate, h]
  · simp [SearchQuerySerializer.validate]
  · simp [buildSearch]
  · simp [buildSearch]
  · intro doc; simp [Filter.matchesDoc]
  · intro doc; simp [Filter.matchesDoc]

/-- Witness for C5 at price_min = 100, price_max = 50. -/
theorem price_bounds_validation_witness :
    SearchQuerySerializer.validate { price_min := some 100, price_max := some 50 }
      = Except.error "price_min must be <= price_max" := by
  have h := price_bounds_validation { } (100 : Rat) (50 : Rat) (by norm_num)
  exact h.1

/-- C6: for every non-empty category filter, the built query carries the
`terms` filter on the id list, that filter keeps exactly the documents
whose `category_id` is in the list, and two id lists denoting the same set
(differing only in duplicates or order) restrict every document
identically. -/
theorem category_filter_set_semantics (d : SearchQuery) (ids1 ids2 : List Int)
    (hne : ids1 ≠ []) (hset : ∀ x : Int, x ∈ ids1 ↔ x ∈ ids2) :
    (Filter.termsCategoryId ids1 ∈ (buildSearch { d with category := ids1 }).filters) ∧
    (∀ doc : EsDoc,
      Filter.matchesDoc (Filter.termsCategoryId ids1) doc = true ↔ doc.category_id ∈ ids1) ∧
    (∀ doc : EsDoc,
      Filter.matchesDoc (Filter.termsCategoryId ids1) doc
        = Filter.matchesDoc (Filter.termsCategoryId ids2) doc) := by
  refine ⟨?_, ?_, ?_⟩
  · simp [buildSearch, hne]
  · intro doc; simp [Filter.matchesDoc]
  · intro doc
    simp only [Filter.matchesDoc]
    rw [decide_eq_decide]
    exact hset doc.category_id

/-- Witness for C6: the parsed inputs "1,2,1" and "2,1" denote the same id
set, and restrict a concrete document identically. -/
theorem category_filter_set_semantics_witness :
    validate_category "1,2,1" = Except.ok [1, 2, 1] ∧
    validate_category "2,1" = Except.ok [2, 1] ∧
    Filter.matchesDoc (Filter.termsCategoryId [1, 2, 1]) ⟨7, 2, 10⟩
      = Filter.matchesDoc (Filter.termsCategoryId [2, 1]) ⟨7, 2, 10⟩ := by
  have h := category_filter_set_semantics { } [1, 2, 1] [2, 1]
    (by decide) (by intro x; constructor <;> (intro hx; simp at hx; rcases hx with h1 | h1 <;> simp [h1]))
  exact ⟨rfl, rfl, h.2.2 ⟨7, 2, 10⟩⟩

/-- C8: the projector defaults an absent description or image to the empty
string (and keeps a present one verbatim), passes an uncomputed score
through as null, and the response's count is the engine total normalized
to a plain integer from either the scalar or the structured shape. -/
theorem result_projector_shapes (d : SearchQuery) (h : RawHit) (s : String)
    (t : Nat) (hits : List RawHit) :
    ((projectHit { h with description := none }).description = "") ∧
    ((projectHit { h with image := none }).image = "") ∧
    ((projectHit { h with description := some s }).description = s) ∧
    ((projectHit { h with image := some s }).image = s) ∧
    ((projectHit { h with score := none }).score = none) ∧
    ((projectHit { h with score := some (3 : Rat) }).score = some 3) ∧
    (normalizeTotal (TotalShape.scalar t) = t) ∧
    (normalizeTotal (TotalShape.structured t) = t) ∧
    ((searchResponse d (TotalShape.scalar t) hits).count = t) ∧
    ((searchResponse d (TotalShape.structured t) hits).count = t) :=
  ⟨rfl, rfl, rfl, rfl, rfl, rfl, rfl, rfl, rfl, rfl⟩

/-- C2 evaluation at the failing input: when `registry.update` raises (the
engine unreachable), `index_product` has no handler, so `Product.save()`
commits the row but re-raises the engine exception to its caller — the
claim that the synchronizer logs instead of raising does not hold. -/
theorem index_product_failure_propagates :
    (productSave (some "ConnectionError") none).row_committed = true ∧
    (productSave (some "ConnectionError") none).raised = some "ConnectionError" :=
  ⟨rfl, rfl⟩

/-- C3 evaluation at the failing input: with products `[1, 2]` in the
category, a run where nothing fails indexes both; but when product 1 fails,
the loop in `update_products_on_category_change` has no handler, so product
2 is never re-indexed and the exception propagates — the batch is aborted
rather than continued. -/
theorem category_update_aborts_on_failure :
    (update_products_on_category_change [1, 2] (fun _ => none) = ([1, 2], none)) ∧
    (update_products_on_category_change [1, 2]
        (fun p => if p = 1 then some "ConnectionError" else none)
      = ([], some "ConnectionError")) :=
  ⟨rfl, rfl⟩

/-- C7: `delete_product` passes `raise_on_error=False`, so for every index
state and product id it succeeds, returning the index without that
document; in particular deleting a product whose document is already
absent does not raise. -/
theorem delete_product_idempotent (index : List Int) (pid : Int) :
    delete_product index pid = Except.ok (index.filter (fun d => d ≠ pid)) := by
  by_cases h : pid ∈ index
  · simp [delete_product, registryDelete, h]
  · have heq : index.filter (fun d => !decide (d = pid)) = index :=
      List.filter_eq_self.mpr (fun a ha => by
        simp only [Bool.not_eq_true', decide_eq_false_iff_not]
        intro e
        exact h (e ▸ ha))
    simp [delete_product, registryDelete, h, heq]

/-- The rebuild loop never aborts: it processes every product, and its
success count is the number of products whose upsert does not fail. -/
theorem indexLoop_eq (failing : Int → Bool) :
    ∀ l : List Int,
      indexLoop l failing = ((l.filter (fun p => !(failing p))).length, l.length) := by
  intro l
  induction l with
  | nil => rfl
  | cons p ps ih =>
      cases hf : failing p <;> simp [indexLoop, ih, List.filter, hf]

/-- Splitting a list by a predicate preserves its length. -/
theorem filter_length_split (failing : Int → Bool) :
    ∀ l : List Int,
      (l.filter (fun p => !(failing p))).length + (l.filter failing).length = l.length := by
  intro l
  induction l with
  | nil => rfl
  | cons p ps ih =>
      cases hf : failing p <;> simp [List.filter, hf] <;> omega

/-- C9 (amended): the full rebuild deletes the index treating a missing
index as success, recreates it, and processes every product — a
per-document failure does not abort the loop; the final report states the
success count, and states the failed count whenever at least one document
failed (a fully successful run prints no failed count). -/
theorem populate_rebuild_report (indexExists : Bool) (products : List Int)
    (failing : Int → Bool) :
    (esIndexDelete indexExists true = Except.ok ()) ∧
    ∃ rep : RebuildReport,
      populate_handle indexExists products failing = Except.ok rep ∧
      rep.index_deleted = true ∧
      rep.index_created = true ∧
      rep.processed = products.length ∧
      rep.indexed_count = (products.filter (fun p => !(failing p))).length ∧
      (0 < (products.filter failing).length →
        rep.failed_note = some (products.filter failing).length) := by
  have hdel : esIndexDelete indexExists true = Except.ok () := by
    cases indexExists <;> rfl
  refine ⟨hdel, ?_⟩
  have hsplit := filter_length_split failing products
  have hloop := indexLoop_eq failing products
  have hrep : populate_handle indexExists products failing
      = Except.ok
          { index_deleted := true
            index_created := true
            indexed_count := (products.filter (fun p => !(failing p))).length
            processed := products.length
            failed_note :=
              if (products.filter (fun p => !(failing p))).length < products.length
              then some (products.length
                          - (products.filter (fun p => !(failing p))).length)
              else none } := by
    simp only [populate_handle, hdel, hloop]
  refine ⟨_, hrep, rfl, rfl, rfl, rfl, ?_⟩
  intro hpos
  simp only
  rw [if_pos (by omega)]
  congr 1
  omega

/-- Witness for C9 at a rebuild of products `[1, 2, 3]` where product 2
fails: the report states 2 successes and 1 failure. -/
theorem populate_rebuild_report_witness :
    ∃ rep : RebuildReport,
      populate_handle true [1, 2, 3] (fun p => p == 2) = Except.ok rep ∧
      rep.indexed_count = 2 ∧ rep.failed_note = some 1 := by
  obtain ⟨-, rep, h1, -, -, -, h5, h6⟩ :=
    populate_rebuild_report true [1, 2, 3] (fun p => p == 2)
  refine ⟨rep, h1, ?_, ?_⟩
  · rw [h5]; decide
  · rw [h6 (by decide)]; decide

/-- C9 counterexample to the claim as stated: a fully successful rebuild of
two products reports the success count but prints no failed count at all,
so the final report does not state how many documents failed. -/
theorem populate_report_omits_failed_count :
    populate_handle true [1, 2] (fun _ => false)
      = Except.ok { index_deleted := true, index_created := true,
                    indexed_count := 2, processed := 2, failed_note := none } :=
  rfl

/-- C10: the category-name uniqueness check matches every stored row by
name only, never excluding the row being written; so an update that keeps
a category's own current name is rejected as a duplicate. -/
theorem category_name_duplicate_rejection (store : List (Int × String))
    (id : Int) (name : String) (hmem : (id, name) ∈ store) :
    CategorySerializer.validate_name store name
      = Except.error "Категория с таким именем уже существует" := by
  unfold CategorySerializer.validate_name
  rw [if_pos]
  exact List.any_eq_true.mpr ⟨(id, name), hmem, by simp⟩

/-- Witness for C10: updating category 1 while keeping its current name
"Books" is rejected as a duplicate. -/
theorem category_name_duplicate_rejection_witness :
    CategorySerializer.validate_name [(1, "Books")] "Books"
      = Except.error "Категория с таким именем уже существует" :=
  category_name_duplicate_rejection [(1, "Books")] 1 "Books" (by simp)

end Catalog
